import Mathlib

/-!
Verification of the Statistical Market Intelligence Engine of the
`ai_job_market` repository, shallowly embedded in Lean 4.

The embedding follows the two analyzer modules
`src/analysis/salary-analysis/salary_intelligence.py` and
`src/analysis/skills-demand-analysis/skills_demand_analyzer.py`.

Modelling conventions:
* Numeric cells (`float64` columns of the pandas dataframe) are modelled as
  rationals (`ℚ`).  Division by zero is total in `ℚ` (returning `0`) where
  Python/NumPy would produce `inf`/`nan`; theorems that depend on a quotient
  carry an explicit nonzero hypothesis for the denominator.
* `scipy.stats.ttest_ind` is an external library routine; it is modelled as
  an explicit parameter `ttest : TTest` returning the pair
  `(t_statistic, p_value)`, exactly as the analyzers consume it.  All
  statements about the analyzers are either uniform in this parameter or
  instantiate it with a concrete function.
* `round(x, n)` of Python is modelled as round-half-to-even on `ℚ` at `n`
  decimal digits (`round2`, `round4`).
* `pandas.DataFrame.sort_values` is modelled by `List.insertionSort` with
  the corresponding key; only the multiset of rows of a sorted result is
  used by the theorems, never the order.
-/

set_option allowUnsafeReducibility true in
attribute [semireducible] Rat.ofScientific Rat.mul Rat.inv Rat.add Rat.sub

namespace JobMarket

/-- Mean of a list of rationals: `Series.mean()`; `0` on the empty list
(pandas would give `NaN`). -/
def listMean (l : List ℚ) : ℚ := l.sum / l.length

/-- Maximum of a list of rationals: `Series.max()`; `0` on the empty list
(pandas would give `NaN`; all uses are guarded by non-emptiness). -/
def listMax (l : List ℚ) : ℚ := l.maximum.getD 0

/-- Median of a list of rationals: `Series.median()` (midpoint of the two
central order statistics for even length). -/
def listMedian (l : List ℚ) : ℚ :=
  let s := List.insertionSort (· ≤ ·) l
  let n := s.length
  if n = 0 then 0
  else if n % 2 = 1 then s.getD (n / 2) 0
  else (s.getD (n / 2 - 1) 0 + s.getD (n / 2) 0) / 2

/-- Round-half-to-even to an integer, the rounding used by Python `round`. -/
def roundHalfEven (q : ℚ) : ℤ :=
  let n := ⌊q⌋
  let f := q - n
  if f < 1 / 2 then n
  else if 1 / 2 < f then n + 1
  else if n % 2 = 0 then n else n + 1

/-- Python `round(x, 2)` on a rational. -/
def round2 (q : ℚ) : ℚ := (roundHalfEven (q * 100) : ℚ) / 100

/-- Python `round(x, 4)` on a rational. -/
def round4 (q : ℚ) : ℚ := (roundHalfEven (q * 10000) : ℚ) / 10000

/-- Python `str.title()` (ASCII): upper-case every alphabetic character that
follows a non-alphabetic one, lower-case the remaining alphabetic ones. -/
def pyTitleAux : Bool → List Char → List Char
  | _, [] => []
  | prevAlpha, c :: cs =>
    let alpha := c.isAlpha
    (if alpha && !prevAlpha then c.toUpper else c.toLower) :: pyTitleAux alpha cs

/-- Python `str.title()` on a string. -/
def pyTitle (s : String) : String := String.mk (pyTitleAux false s.data)

/-- Replace every (leftmost, non-overlapping) occurrence of `pat` by `rep`,
structurally recursive on a fuel argument so that it evaluates in the
kernel; the fuel is always instantiated with the input length, which
suffices because every step consumes at least one input character. -/
def pyReplaceAux (pat rep : List Char) : Nat → List Char → List Char
  | _, [] => []
  | 0, s => s
  | fuel + 1, c :: cs =>
    if pat.isPrefixOf (c :: cs) then
      rep ++ pyReplaceAux pat rep fuel (List.drop (pat.length - 1) cs)
    else c :: pyReplaceAux pat rep fuel cs

/-- Python `str.replace(pat, rep)` (all occurrences, left to right). -/
def pyReplace (s pat rep : String) : String :=
  String.mk (pyReplaceAux pat.data rep.data s.data.length s.data)

/-- Python `str.startswith(pat)`. -/
def pyStartsWith (s pat : String) : Bool := pat.data.isPrefixOf s.data

/-- `skill_col.replace('skill_', '').replace('_', ' ').title()`, the display
name both analyzers derive from a skill column name. -/
def pySkillName (col : String) : String :=
  pyTitle (pyReplace (pyReplace col "skill_" "") "_" " ")

/-- One row of the tabular dataset.  `cells` models the numeric columns
(`salary_avg`, the `skill_*` 0/1 indicators, `skills_count`, ...); `sig`
models the string-valued `skill_signature` column written by
`analyze_skill_combinations` (meaningful only when that column name is
present in the dataframe). -/
structure Row where
  cells : String → ℚ
  sig : String := ""

instance : Inhabited Row := ⟨⟨fun _ => 0, ""⟩⟩

/-- The in-memory dataframe: its column names, in order, and its rows. -/
structure DF where
  cols : List String
  rows : List Row

/-- Convenience constructor for a posting row: `salary_avg` value plus the
set of skill columns whose indicator is `1` (all other numeric cells `0`). -/
def mkRow (sal : ℚ) (skills : List String) : Row :=
  { cells := fun c => if c = "salary_avg" then sal else if c ∈ skills then 1 else 0 }

/-- `df['salary_avg']` as a list. -/
def salaries (df : DF) : List ℚ := df.rows.map (fun r => r.cells "salary_avg")

/-- `df[df[skill_col] == 1]['salary_avg']`. -/
def withSalaries (df : DF) (col : String) : List ℚ :=
  (df.rows.filter (fun r => r.cells col = 1)).map (fun r => r.cells "salary_avg")

/-- `df[df[skill_col] == 0]['salary_avg']`. -/
def withoutSalaries (df : DF) (col : String) : List ℚ :=
  (df.rows.filter (fun r => r.cells col = 0)).map (fun r => r.cells "salary_avg")

/-- The dynamically discovered skill indicator columns of
`skills_demand_analyzer.py` (lines 253-254): columns whose name starts with
`skill_`, excluding the raw text column `skills`. -/
def skillBinaryCols (df : DF) : List String :=
  df.cols.filter (fun c => pyStartsWith c "skill_" && c ≠ "skills")

/-- The external two-sample t-test (`scipy.stats.ttest_ind`), returning
`(t_statistic, p_value)`. -/
abbrev TTest := List ℚ → List ℚ → ℚ × ℚ

/-- A fixed concrete backend used to instantiate statements; the fields the
counterexamples inspect do not depend on the backend's output. -/
def ttest0 : TTest := fun _ _ => (0, 1)

/-- `SkillPremiumResult` of `salary_intelligence.py` (lines 65-90). -/
structure SkillPremiumResult where
  skill_name : String
  avg_salary_with_skill : ℚ
  avg_salary_without_skill : ℚ
  salary_premium : ℚ
  premium_percentage : ℚ
  count_with_skill : ℕ
  count_without_skill : ℕ
  p_value : ℚ
  is_significant : Bool
deriving Repr, DecidableEq

instance : Inhabited SkillPremiumResult :=
  ⟨{ skill_name := "", avg_salary_with_skill := 0, avg_salary_without_skill := 0,
     salary_premium := 0, premium_percentage := 0, count_with_skill := 0,
     count_without_skill := 0, p_value := 0, is_significant := false }⟩

/-- One iteration of the loop of
`SalaryIntelligenceAnalyzer.analyze_skill_premium` (lines 173-212):
`none` models `continue` (column absent, or an empty partition), `some`
the appended `SkillPremiumResult`.  `backend` is `None` exactly when the
`scipy` import failed, in which case the source assigns the literal
`p_value = 0.05` (line 195). -/
def spRowFor (backend : Option TTest) (alpha : ℚ) (df : DF) (col : String) :
    Option SkillPremiumResult :=
  if col ∈ df.cols then
    if (withSalaries df col).length = 0 ∨ (withoutSalaries df col).length = 0 then
      none
    else
      some { skill_name := pySkillName col
             avg_salary_with_skill := listMean (withSalaries df col)
             avg_salary_without_skill := listMean (withoutSalaries df col)
             salary_premium :=
               listMean (withSalaries df col) - listMean (withoutSalaries df col)
             premium_percentage :=
               (listMean (withSalaries df col) - listMean (withoutSalaries df col)) /
                 listMean (withoutSalaries df col) * 100
             count_with_skill := (withSalaries df col).length
             count_without_skill := (withoutSalaries df col).length
             p_value := backend.elim (1 / 20)
               (fun t => (t (withSalaries df col) (withoutSalaries df col)).2)
             is_significant := decide (backend.elim (1 / 20)
               (fun t => (t (withSalaries df col) (withoutSalaries df col)).2) < alpha) }
  else none

/-- `SalaryIntelligenceAnalyzer.analyze_skill_premium` (lines 152-218):
loop over the requested skill columns, then
`sort_values('salary_premium', ascending=False)`.  (On an input where no
skill at all is evaluated, pandas `sort_values` on the empty frame would
raise; the embedding returns the empty list.) -/
def analyzeSkillPremium (backend : Option TTest) (alpha : ℚ) (df : DF)
    (skillColumns : List String) : List SkillPremiumResult :=
  List.insertionSort (fun x y => y.salary_premium ≤ x.salary_premium)
    (skillColumns.filterMap (spRowFor backend alpha df))

/-- The `value_tier` labels of `identify_high_value_skills`. -/
inductive ValueTier where
  | Standard
  | HighValue
  | Premium
deriving Repr, DecidableEq

/-- `pd.cut(s, bins=[0, 33, 66, 100], labels=['Standard', 'High-Value',
'Premium'])` applied to one value: with pandas' defaults the bins are
left-open and right-closed, `(0,33]`, `(33,66]`, `(66,100]`, and a value on
no bin (incl. exactly `0`) gets no label (`NaN`), modelled as `none`. -/
def pdCut3 (s : ℚ) : Option ValueTier :=
  if 0 < s ∧ s ≤ 33 then some .Standard
  else if 33 < s ∧ s ≤ 66 then some .HighValue
  else if 66 < s ∧ s ≤ 100 then some .Premium
  else none

/-- One row of the `identify_high_value_skills` result
(`skills_demand_analyzer.py` lines 283-294 plus the `value_score` /
`value_tier` columns added at lines 300-314; the two extra fields default
to `0` / `none` until that later step assigns them). -/
structure HighValueSkillRow where
  skill_name : String
  avg_salary_with_skill : ℚ
  avg_salary_without_skill : ℚ
  salary_premium : ℚ
  premium_percentage : ℚ
  demand_count : ℕ
  demand_percentage : ℚ
  p_value : ℚ
  is_significant : Bool
  t_statistic : ℚ
  value_score : ℚ := 0
  value_tier : Option ValueTier := none
deriving Repr, DecidableEq

instance : Inhabited HighValueSkillRow :=
  ⟨{ skill_name := "", avg_salary_with_skill := 0, avg_salary_without_skill := 0,
     salary_premium := 0, premium_percentage := 0, demand_count := 0,
     demand_percentage := 0, p_value := 0, is_significant := false,
     t_statistic := 0 }⟩

/-- One iteration of the loop of
`SkillsDemandAnalyzer.identify_high_value_skills` (lines 259-294): `none`
models `continue` when a partition has fewer than two rows.  Note that the
source computes `salary_premium = avg_salary_with - overall_avg_salary`
(line 270) and `premium_pct = (avg_salary_with / overall_avg_salary - 1) *
100` (line 271), both against the overall mean, and that `is_significant`
is decided on the raw `p_value` while the stored `p_value` is rounded to 4
decimals. -/
def hvsRowFor (ttest : TTest) (df : DF) (col : String) : Option HighValueSkillRow :=
  if (withSalaries df col).length < 2 ∨ (withoutSalaries df col).length < 2 then
    none
  else
    some { skill_name := pySkillName col
           avg_salary_with_skill := round2 (listMean (withSalaries df col))
           avg_salary_without_skill := round2 (listMean (withoutSalaries df col))
           salary_premium :=
             round2 (listMean (withSalaries df col) - listMean (salaries df))
           premium_percentage :=
             round2 ((listMean (withSalaries df col) / listMean (salaries df) - 1) * 100)
           demand_count := (withSalaries df col).length
           demand_percentage :=
             round2 (((withSalaries df col).length : ℚ) / df.rows.length * 100)
           p_value := round4 (ttest (withSalaries df col) (withoutSalaries df col)).2
           is_significant :=
             decide ((ttest (withSalaries df col) (withoutSalaries df col)).2 < 1 / 20)
           t_statistic := round4 (ttest (withSalaries df col) (withoutSalaries df col)).1 }

/-- The row collection built by the loop of `identify_high_value_skills`
(the dataframe of line 296, before scores and tiers are added). -/
def hvsBase (ttest : TTest) (df : DF) : List HighValueSkillRow :=
  (skillBinaryCols df).filterMap (hvsRowFor ttest df)

/-- The `value_score` assignment of lines 300-304:
`((p / p.max()) * 0.5 + (d / d.max()) * 0.5) * 100`, rounded to 2
decimals, with both maxima taken over the current result set. -/
def setValueScore (maxP maxD : ℚ) (r : HighValueSkillRow) : HighValueSkillRow :=
  { r with value_score :=
      round2 ((r.premium_percentage / maxP * (1 / 2) +
               r.demand_percentage / maxD * (1 / 2)) * 100) }

/-- The `value_tier` assignment of lines 310-314 (`pd.cut` on the sorted
frame). -/
def setValueTier (r : HighValueSkillRow) : HighValueSkillRow :=
  { r with value_tier := pdCut3 r.value_score }

/-- `SkillsDemandAnalyzer.identify_high_value_skills` (lines 243-317):
build the per-skill rows, and if any exist add `value_score`, sort by it
descending (`sort_values`), and add `value_tier`. -/
def identifyHighValueSkills (ttest : TTest) (df : DF) : List HighValueSkillRow :=
  let base := hvsBase ttest df
  if base.isEmpty then base
  else
    let maxP := listMax (base.map (fun r => r.premium_percentage))
    let maxD := listMax (base.map (fun r => r.demand_percentage))
    (List.insertionSort (fun x y => y.value_score ≤ x.value_score)
      (base.map (setValueScore maxP maxD))).map setValueTier

/-- The four filtered views of `SkillsDemandAnalyzer.analyze_talent_gap`. -/
structure TalentGapResult where
  critical_skills : List HighValueSkillRow
  emerging_opportunities : List HighValueSkillRow
  oversupplied_skills : List HighValueSkillRow
  undervalued_gems : List HighValueSkillRow

/-- The filtering step of `SkillsDemandAnalyzer.analyze_talent_gap`
(lines 330-362), applied to a high-value-skills result set.  The four
filters are applied independently to the same input frame;
`Series.between(10, 20)` is inclusive on both ends. -/
def analyzeTalentGapOf (rows : List HighValueSkillRow) : TalentGapResult :=
  { critical_skills := rows.filter (fun r =>
      decide (20 < r.demand_percentage) && decide (10 < r.premium_percentage) &&
      r.is_significant)
    emerging_opportunities := rows.filter (fun r =>
      decide (10 ≤ r.demand_percentage) && decide (r.demand_percentage ≤ 20) &&
      decide (20 < r.premium_percentage) && r.is_significant)
    oversupplied_skills := rows.filter (fun r =>
      decide (20 < r.demand_percentage) && decide (r.premium_percentage < 5))
    undervalued_gems := rows.filter (fun r =>
      decide (r.demand_percentage < 15) && decide (15 < r.premium_percentage) &&
      r.is_significant) }

/-- `SkillsDemandAnalyzer.analyze_talent_gap` (lines 319-370): run
`identify_high_value_skills`, then filter. -/
def analyzeTalentGap (ttest : TTest) (df : DF) : TalentGapResult :=
  analyzeTalentGapOf (identifyHighValueSkills ttest df)

/-- The symmetric skill correlation matrix consumed by
`analyze_skill_cooccurrence`: the cleaned column names and the matrix
entries by index (`corr_matrix.iloc[i, j]`).  The matrix itself is produced
by the external `pandas.DataFrame.corr()` (Pearson, with `NaN` for
zero-variance columns), so it enters the embedding as a parameter. -/
structure CorrMatrix where
  names : List String
  entry : ℕ → ℕ → ℚ

/-- One appended entry of the loop of
`SkillsDemandAnalyzer.analyze_skill_cooccurrence` (lines 156-161). -/
structure SkillPair where
  skill_1 : String
  skill_2 : String
  correlation : ℚ
  strength : String
deriving Repr, DecidableEq

/-- The record appended for the index pair `(i, j)` (lines 156-161):
`strength = 'Strong' if correlation >= 0.6 else 'Moderate'`. -/
def pairOf (m : CorrMatrix) (i j : ℕ) : SkillPair :=
  { skill_1 := m.names.getD i ""
    skill_2 := m.names.getD j ""
    correlation := m.entry i j
    strength := if 6 / 10 ≤ m.entry i j then "Strong" else "Moderate" }

/-- The double loop of `analyze_skill_cooccurrence` (lines 148-161):
`for i in range(n): for j in range(i+1, n): if correlation >=
min_correlation: append(...)`.  Note the comparison is on the signed
correlation, not its absolute value. -/
def extractPairs (m : CorrMatrix) (minCorrelation : ℚ) : List SkillPair :=
  (List.range m.names.length).flatMap fun i =>
    ((List.range m.names.length).filter fun j => i < j).filterMap fun j =>
      if minCorrelation ≤ m.entry i j then some (pairOf m i j) else none

/-- `SkillsDemandAnalyzer.analyze_skill_cooccurrence` (lines 132-168):
extract the qualifying upper-triangle pairs, then
`sort_values('correlation', ascending=False)`. -/
def analyzeSkillCooccurrence (m : CorrMatrix) (minCorrelation : ℚ) : List SkillPair :=
  List.insertionSort (fun x y => y.correlation ≤ x.correlation)
    (extractPairs m minCorrelation)

/-- `get_skill_columns()` of `utils/enums.py` (lines 58-66), in its exact
source order (which is not alphabetical). -/
def getSkillColumns : List String :=
  ["skill_tensorflow", "skill_excel", "skill_pandas", "skill_fastapi",
   "skill_numpy", "skill_reinforcement_learning", "skill_azure", "skill_sql",
   "skill_hugging_face", "skill_keras", "skill_power_bi", "skill_aws",
   "skill_gcp", "skill_python", "skill_langchain", "skill_pytorch",
   "skill_scikit-learn", "skill_flask", "skill_cuda", "skill_r"]

/-- `available_skills = [col for col in skill_cols if col in self.df.columns]`
(`salary_intelligence.py` line 456): the registry order is kept, the
dataframe's own column order is irrelevant. -/
def availableSkills (df : DF) : List String :=
  getSkillColumns.filter (fun c => c ∈ df.cols)

/-- The per-row `skill_signature` of `analyze_skill_combinations` (lines
459-461): `','.join([col.replace('skill_', '') for col in available_skills
if row[col] == 1])` — a comma-join in the fixed `get_skill_columns()`
order. -/
def skillSignature (df : DF) (r : Row) : String :=
  String.intercalate ","
    (((availableSkills df).filter (fun c => r.cells c = 1)).map
      (fun c => pyReplace c "skill_" ""))

/-- Lexicographic comparison of character lists (strict), used only by the
spec-side sorted signature. -/
def charListLt : List Char → List Char → Bool
  | [], [] => false
  | [], _ :: _ => true
  | _ :: _, [] => false
  | a :: as, b :: bs =>
    if a < b then true else if b < a then false else charListLt as bs

/-- Insertion step for the lexicographic string sort used only to compare
against the spec's words. -/
def insertStr (a : String) : List String → List String
  | [] => [a]
  | b :: l => if charListLt a.data b.data then a :: b :: l else b :: insertStr a l

/-- Lexicographic ascending sort of strings. -/
def sortStrings : List String → List String
  | [] => []
  | a :: l => insertStr a (sortStrings l)

/-- Modelled from the spec: the signature as §4.5 words it — "the sorted,
comma-joined list of skill names whose indicator is 1" — for comparison
with `skillSignature`, which joins in registry order instead. -/
def sortedSignatureSpec (df : DF) (r : Row) : String :=
  String.intercalate ","
    (sortStrings (((availableSkills df).filter (fun c => r.cells c = 1)).map
      (fun c => pyReplace c "skill_" "")))

/-- The effect of `analyze_skill_combinations` on the stored dataframe
(`self.df['skill_signature'] = ...`, lines 459-462): the string column
`skill_signature` is written onto `self.df` (appended to the column list
when absent, overwritten otherwise). -/
def analyzeSkillCombinationsDF (df : DF) : DF :=
  { cols := if "skill_signature" ∈ df.cols then df.cols
            else df.cols ++ ["skill_signature"]
    rows := df.rows.map (fun r => { r with sig := skillSignature df r }) }

/-- One row of the `analyze_skill_combinations` result (line 470). -/
structure SkillCombinationRow where
  skill_combination : String
  mean_salary : ℚ
  median_salary : ℚ
  count : ℕ
  num_skills : ℚ
  salary_per_skill : ℚ
deriving Repr, DecidableEq

/-- `SalaryIntelligenceAnalyzer.analyze_skill_combinations` (lines 441-482):
returns the mutated dataframe (its `self.df` after the method) together
with the result rows.  `groupby('skill_signature')` groups are listed here
in first-occurrence order (pandas sorts group keys; the final order is by
`mean_salary` descending either way); `'skills_count': 'first'` takes the
first row of the group.  The `salary_per_skill` column, computed in the
source after the `count >= min_count` filter, receives the same values
computed per group here. -/
def analyzeSkillCombinations (minCount : ℕ) (df : DF) :
    DF × List SkillCombinationRow :=
  let df2 := analyzeSkillCombinationsDF df
  let sigs := (df2.rows.map (fun r => r.sig)).dedup
  let combos := sigs.map (fun s =>
    let g := df2.rows.filter (fun r => r.sig = s)
    let sal := g.map (fun r => r.cells "salary_avg")
    let numSkills := (g.headD default).cells "skills_count"
    { skill_combination := s
      mean_salary := listMean sal
      median_salary := listMedian sal
      count := g.length
      num_skills := numSkills
      salary_per_skill := listMean sal / numSkills : SkillCombinationRow })
  (df2, List.insertionSort (fun x y => y.mean_salary ≤ x.mean_salary)
    (combos.filter (fun c => minCount ≤ c.count)))

/-- The effect of `analyze_salary_per_skill` on the stored dataframe
(`salary_intelligence.py` lines 336-340): when the `salary_per_skill`
column is absent and `skills_count` is present, the method writes
`self.df['salary_per_skill'] = self.df['salary_avg'] /
self.df['skills_count']`.  The remainder of the method (lines 342-374)
only reads `self.df` through `groupby`/aggregation into fresh frames. -/
def analyzeSalaryPerSkillDF (df : DF) : DF :=
  if "salary_per_skill" ∈ df.cols then df
  else if "skills_count" ∈ df.cols then
    { cols := df.cols ++ ["salary_per_skill"]
      rows := df.rows.map (fun r =>
        { r with cells := fun c =>
            if c = "salary_per_skill" then r.cells "salary_avg" / r.cells "skills_count"
            else r.cells c }) }
  else df

/-- Concrete dataset: two postings with `skill_python` at salary `100`,
two without at salary `50`. -/
def dfC1 : DF :=
  { cols := ["salary_avg", "skill_python"]
    rows := [mkRow 100 ["skill_python"], mkRow 100 ["skill_python"],
             mkRow 50 [], mkRow 50 []] }

/-- Concrete dataset with two skills: 10 postings with `skill_a` at salary
`1300`, 5 with `skill_b` at `1100`, 5 with neither at `300` (overall mean
`1000`). -/
def dfC3 : DF :=
  { cols := ["salary_avg", "skill_a", "skill_b"]
    rows := List.replicate 10 (mkRow 1300 ["skill_a"]) ++
            List.replicate 5 (mkRow 1100 ["skill_b"]) ++
            List.replicate 5 (mkRow 300 []) }

/-- Concrete dataset: one posting with `skill_python` at salary `100`, one
without at salary `50`. -/
def dfC4 : DF :=
  { cols := ["salary_avg", "skill_python"]
    rows := [mkRow 100 ["skill_python"], mkRow 50 []] }

/-- Concrete dataset with two skills: 10 postings with `skill_a` at salary
`15000`, 2 with `skill_b` at `12300`, 8 with neither at `3175` (overall
mean `10000`); `skill_b` scores exactly `33`. -/
def dfC6 : DF :=
  { cols := ["salary_avg", "skill_a", "skill_b"]
    rows := List.replicate 10 (mkRow 15000 ["skill_a"]) ++
            List.replicate 2 (mkRow 12300 ["skill_b"]) ++
            List.replicate 8 (mkRow 3175 []) }

/-- Concrete dataset whose without-`skill_python` partition is non-empty
with mean salary `0`. -/
def dfC7 : DF :=
  { cols := ["salary_avg", "skill_python"]
    rows := [mkRow 100 ["skill_python"], mkRow 0 []] }

/-- Concrete dataset whose columns list `skill_excel` before
`skill_tensorflow`. -/
def dfC8 : DF :=
  { cols := ["salary_avg", "skill_excel", "skill_tensorflow"]
    rows := [mkRow 100 ["skill_excel", "skill_tensorflow"]] }

/-- The same dataset with its columns in the reverse order. -/
def dfC8b : DF :=
  { cols := ["skill_tensorflow", "skill_excel", "salary_avg"]
    rows := [mkRow 100 ["skill_excel", "skill_tensorflow"]] }

/-- A posting requiring both `skill_tensorflow` and `skill_excel`. -/
def rC8 : Row := mkRow 100 ["skill_excel", "skill_tensorflow"]

/-- Concrete dataset without a `skill_signature` column. -/
def dfC9 : DF :=
  { cols := ["salary_avg", "skills_count", "skill_python"]
    rows := [mkRow 100 ["skill_python"], mkRow 50 []] }

/-- Concrete dataset with a `skills_count` column and no
`salary_per_skill` column. -/
def dfW9 : DF :=
  { cols := ["job_id", "salary_avg", "skills_count"]
    rows := [mkRow 80 []] }

/-- Concrete dataset with a single skill, two postings on each side. -/
def dfW : DF :=
  { cols := ["salary_avg", "skill_x"]
    rows := [mkRow 100 ["skill_x"], mkRow 100 ["skill_x"],
             mkRow 50 [], mkRow 50 []] }

/-- Concrete correlation matrix over two skills whose off-diagonal
correlation is `-1/2`. -/
def mNeg : CorrMatrix :=
  { names := ["A", "B"], entry := fun i j => if i = j then 1 else -(1 / 2) }

/-- Concrete correlation matrix over two skills whose off-diagonal
correlation is `7/10`. -/
def mPos : CorrMatrix :=
  { names := ["A", "B"], entry := fun i j => if i = j then 1 else 7 / 10 }

/-- A synthetic high-value-skill row with `demand_pct = 25`,
`premium_pct = 12`, significant. -/
def rGap : HighValueSkillRow :=
  { skill_name := "X", avg_salary_with_skill := 0, avg_salary_without_skill := 0,
    salary_premium := 0, premium_percentage := 12, demand_count := 5,
    demand_percentage := 25, p_value := 0, is_significant := true,
    t_statistic := 0 }

/-- Permuting a list does not change its maximum. -/
theorem maximum_of_perm {l l' : List ℚ} (h : List.Perm l l') :
    l.maximum = l'.maximum := by
  have hchar : ∀ (L L' : List ℚ), List.Perm L L' → ∀ m : ℚ,
      L.maximum = m → L'.maximum = m := by
    intro L L' hp m hm
    rw [List.maximum_eq_coe_iff] at hm ⊢
    exact ⟨hp.mem_iff.mp hm.1, fun a ha => hm.2 a (hp.mem_iff.mpr ha)⟩
  rcases hm : l.maximum with _ | m
  · have hl : l = [] := List.maximum_eq_bot.mp hm
    subst hl
    have hl' : l' = [] := h.symm.eq_nil
    subst hl'
    rfl
  · exact (hchar l l' h m hm).symm

/-- Permuting a list does not change `listMax`. -/
theorem listMax_of_perm {l l' : List ℚ} (h : List.Perm l l') :
    listMax l = listMax l' := by
  simp [listMax, maximum_of_perm h]

/-- Counting `filterMap` survivors equals counting by any predicate that
matches `isSome` of the step function. -/
theorem length_filterMap_eq_length_filter {α β : Type} (f : α → Option β)
    (p : α → Bool) (hf : ∀ a, (f a).isSome = p a) :
    ∀ l : List α, (l.filterMap f).length = (l.filter p).length := by
  intro l
  induction l with
  | nil => rfl
  | cons a l ih =>
    rcases hfa : f a with _ | b
    · have hpa : p a = false := by rw [← hf a, hfa]; rfl
      simp [List.filterMap_cons, List.filter_cons, hfa, hpa, ih]
    · have hpa : p a = true := by rw [← hf a, hfa]; rfl
      simp [List.filterMap_cons, List.filter_cons, hfa, hpa, ih]

/-- Any row of the `identify_high_value_skills` output is a base row with
its `value_score` and `value_tier` filled in from the base maxima. -/
theorem mem_identifyHighValueSkills {ttest : TTest} {df : DF}
    {r : HighValueSkillRow} (h : r ∈ identifyHighValueSkills ttest df) :
    ∃ r0 ∈ hvsBase ttest df,
      r = setValueTier (setValueScore
        (listMax ((hvsBase ttest df).map (fun x => x.premium_percentage)))
        (listMax ((hvsBase ttest df).map (fun x => x.demand_percentage))) r0) := by
  unfold identifyHighValueSkills at h
  by_cases hb : (hvsBase ttest df).isEmpty
  · rw [if_pos hb] at h
    rw [List.isEmpty_iff.mp hb] at h
    exact absurd h (List.not_mem_nil r)
  · rw [if_neg hb] at h
    obtain ⟨r1, hr1, hrt⟩ := List.mem_map.mp h
    rw [List.mem_insertionSort] at hr1
    obtain ⟨r0, hr0, hrs⟩ := List.mem_map.mp hr1
    exact ⟨r0, hr0, by rw [← hrt, ← hrs]⟩

/-- `setValueScore` and `setValueTier` leave the premium and demand fields
unchanged. -/
theorem setters_preserve_fields (a b : ℚ) (r : HighValueSkillRow) :
    (setValueTier (setValueScore a b r)).premium_percentage = r.premium_percentage ∧
    (setValueTier (setValueScore a b r)).demand_percentage = r.demand_percentage ∧
    (setValueTier (setValueScore a b r)).salary_premium = r.salary_premium ∧
    (setValueTier (setValueScore a b r)).value_score =
      round2 ((r.premium_percentage / a * (1 / 2) +
               r.demand_percentage / b * (1 / 2)) * 100) ∧
    (setValueTier (setValueScore a b r)).value_tier =
      pdCut3 (setValueTier (setValueScore a b r)).value_score := by
  simp [setValueScore, setValueTier]

/-- The premium percentages of the final output are a permutation of those
of the base rows (sorting and the setter maps preserve them). -/
theorem map_premium_perm (ttest : TTest) (df : DF) :
    List.Perm ((identifyHighValueSkills ttest df).map (fun x => x.premium_percentage))
      ((hvsBase ttest df).map (fun x => x.premium_percentage)) := by
  unfold identifyHighValueSkills
  by_cases hb : (hvsBase ttest df).isEmpty
  · rw [if_pos hb, List.isEmpty_iff.mp hb]
  · rw [if_neg hb]
    rw [List.map_map]
    refine ((List.perm_insertionSort _ _).map _).trans ?_
    rw [List.map_map]
    apply List.Perm.of_eq
    apply List.map_congr_left
    intro r0 _
    simp [setValueScore, setValueTier]

/-- The demand percentages of the final output are a permutation of those
of the base rows. -/
theorem map_demand_perm (ttest : TTest) (df : DF) :
    List.Perm ((identifyHighValueSkills ttest df).map (fun x => x.demand_percentage))
      ((hvsBase ttest df).map (fun x => x.demand_percentage)) := by
  unfold identifyHighValueSkills
  by_cases hb : (hvsBase ttest df).isEmpty
  · rw [if_pos hb, List.isEmpty_iff.mp hb]
  · rw [if_neg hb]
    rw [List.map_map]
    refine ((List.perm_insertionSort _ _).map _).trans ?_
    rw [List.map_map]
    apply List.Perm.of_eq
    apply List.map_congr_left
    intro r0 _
    simp [setValueScore, setValueTier]

/-- C2.  For every run of the talent-gap classifier over a
high-value-skills result set, the four output categories contain exactly
the rows satisfying their fixed-threshold rules (`critical`:
`demand_pct > 20 ∧ premium_pct > 10 ∧ is_significant`; `emerging`:
`10 ≤ demand_pct ≤ 20 ∧ premium_pct > 20 ∧ is_significant`;
`oversupplied`: `demand_pct > 20 ∧ premium_pct < 5`; `undervalued`:
`demand_pct < 15 ∧ premium_pct > 15 ∧ is_significant`), the filters are
applied independently, and a skill with `demand_pct = 25`,
`premium_pct = 12`, significant, lands in `critical_skills` and not in
`oversupplied_skills`. -/
theorem talent_gap_categories (rows : List HighValueSkillRow) :
    (∀ r, r ∈ (analyzeTalentGapOf rows).critical_skills ↔
       r ∈ rows ∧ 20 < r.demand_percentage ∧ 10 < r.premium_percentage ∧
       r.is_significant = true) ∧
    (∀ r, r ∈ (analyzeTalentGapOf rows).emerging_opportunities ↔
       r ∈ rows ∧ 10 ≤ r.demand_percentage ∧ r.demand_percentage ≤ 20 ∧
       20 < r.premium_percentage ∧ r.is_significant = true) ∧
    (∀ r, r ∈ (analyzeTalentGapOf rows).oversupplied_skills ↔
       r ∈ rows ∧ 20 < r.demand_percentage ∧ r.premium_percentage < 5) ∧
    (∀ r, r ∈ (analyzeTalentGapOf rows).undervalued_gems ↔
       r ∈ rows ∧ r.demand_percentage < 15 ∧ 15 < r.premium_percentage ∧
       r.is_significant = true) ∧
    (∀ r, r ∈ rows → r.demand_percentage = 25 → r.premium_percentage = 12 →
       r.is_significant = true →
       r ∈ (analyzeTalentGapOf rows).critical_skills ∧
       r ∉ (analyzeTalentGapOf rows).oversupplied_skills) := by
  refine ⟨?_, ?_, ?_, ?_, ?_⟩
  · intro r
    simp [analyzeTalentGapOf, List.mem_filter, and_assoc]
  · intro r
    simp [analyzeTalentGapOf, List.mem_filter, and_assoc]
  · intro r
    simp [analyzeTalentGapOf, List.mem_filter, and_assoc]
  · intro r
    simp [analyzeTalentGapOf, List.mem_filter, and_assoc]
  · intro r hr hd hp hs
    constructor
    · simp [analyzeTalentGapOf, List.mem_filter, hr, hd, hp, hs]
      norm_num
    · simp [analyzeTalentGapOf, List.mem_filter, hd, hp]
      norm_num

/-- Witness for C2: the synthetic row `rGap` (`demand_pct = 25`,
`premium_pct = 12`, significant) is critical and not oversupplied. -/
theorem talent_gap_categories_witness :
    rGap ∈ (analyzeTalentGapOf [rGap]).critical_skills ∧
    rGap ∉ (analyzeTalentGapOf [rGap]).oversupplied_skills :=
  (talent_gap_categories [rGap]).2.2.2.2 rGap (by decide) rfl rfl rfl

/-- C9 (amended).  `analyze_skill_combinations` writes the
`skill_signature` column onto the analyzer's stored dataframe (appending
it to the column list when absent), and `analyze_salary_per_skill` adds a
`salary_per_skill` column when it is absent and `skills_count` exists: the
two cited methods do modify the stored dataframe. -/
theorem analyses_mutate_dataframe (df : DF) (n : ℕ) :
    ((analyzeSkillCombinations n df).1.cols =
       if "skill_signature" ∈ df.cols then df.cols
       else df.cols ++ ["skill_signature"]) ∧
    ("skill_signature" ∉ df.cols →
       (analyzeSkillCombinations n df).1.cols ≠ df.cols) ∧
    ("salary_per_skill" ∉ df.cols → "skills_count" ∈ df.cols →
       (analyzeSalaryPerSkillDF df).cols ≠ df.cols) := by
  refine ⟨rfl, ?_, ?_⟩
  · intro hns h
    rw [show (analyzeSkillCombinations n df).1.cols =
          (if "skill_signature" ∈ df.cols then df.cols
           else df.cols ++ ["skill_signature"]) from rfl, if_neg hns] at h
    have := congrArg List.length h
    simp at this
  · intro hnp hsc h
    unfold analyzeSalaryPerSkillDF at h
    rw [if_neg hnp, if_pos hsc] at h
    have := congrArg List.length h
    simp at this

/-- Witness for C9: on concrete dataframes the two methods change the
column list. -/
theorem analyses_mutate_dataframe_witness :
    (analyzeSkillCombinations 10 dfC9).1.cols ≠ dfC9.cols ∧
    (analyzeSalaryPerSkillDF dfW9).cols ≠ dfW9.cols :=
  ⟨(analyses_mutate_dataframe dfC9 10).2.1 (by decide),
   (analyses_mutate_dataframe dfW9 10).2.2 (by decide) (by decide)⟩

/-- Counterexample for C9: on a concrete dataframe without a
`skill_signature` column, `analyze_skill_combinations` returns a stored
dataframe with an extra column, so the analyzer's dataframe is modified. -/
theorem analyses_mutate_dataframe_counterexample :
    "skill_signature" ∉ dfC9.cols ∧
    (analyzeSkillCombinations 10 dfC9).1.cols =
      dfC9.cols ++ ["skill_signature"] ∧
    dfC9.cols ++ ["skill_signature"] ≠ dfC9.cols := by
  refine ⟨by decide, rfl, by decide⟩

/-- C4 (amended).  When no statistics backend is available the skill
premium analysis still completes and assigns the literal `p_value = 0.05`
(not `1.0`) to every evaluated skill; with the default `alpha = 0.05` the
strict comparison `p_value < alpha` then reports no skill as significant,
but an `alpha` above `0.05` would report every skill significant. -/
theorem backendless_p_value (alpha : ℚ) (df : DF) (cols : List String)
    (r : SkillPremiumResult) (h : r ∈ analyzeSkillPremium none alpha df cols) :
    r.p_value = 1 / 20 ∧ r.is_significant = decide (1 / 20 < alpha) ∧
    (alpha = 1 / 20 → r.is_significant = false) := by
  unfold analyzeSkillPremium at h
  rw [List.mem_insertionSort] at h
  obtain ⟨col, _, hsome⟩ := List.mem_filterMap.mp h
  unfold spRowFor at hsome
  split at hsome
  · split at hsome
    · exact absurd hsome (by simp)
    · obtain rfl := Option.some.inj hsome
      refine ⟨rfl, rfl, ?_⟩
      intro ha
      subst ha
      simp
  · exact absurd hsome (by simp)

/-- Witness for C4: on a concrete dataset with the default
`alpha = 0.05`, the emitted row carries `p_value = 0.05` and is not
significant. -/
theorem backendless_p_value_witness :
    ((analyzeSkillPremium none (1 / 20) dfC4 ["skill_python"]).headD default).p_value
        = 1 / 20 ∧
    ((analyzeSkillPremium none (1 / 20) dfC4 ["skill_python"]).headD default).is_significant
        = false := by
  have h := backendless_p_value (1 / 20) dfC4 ["skill_python"]
    ((analyzeSkillPremium none (1 / 20) dfC4 ["skill_python"]).headD default)
    (by decide)
  exact ⟨h.1, h.2.2 rfl⟩

/-- Counterexample for C4: the fallback p-value on a concrete run is
`0.05`, not the claimed `1.0`. -/
theorem backendless_p_value_counterexample :
    (analyzeSkillPremium none (1 / 20) dfC4 ["skill_python"]).map
        (fun r => r.p_value) = [1 / 20] ∧
    (1 : ℚ) / 20 ≠ 1 := by decide

/-- C10.  `identify_high_value_skills` emits a row for a skill exactly when
both its with-skill partition and its without-skill partition contain at
least 2 rows, and the number of emitted rows equals the number of skill
columns passing that guard; in particular a partition of exactly one
posting is excluded even though it is non-empty. -/
theorem min_partition_guard (ttest : TTest) (df : DF) :
    (∀ col, (hvsRowFor ttest df col).isSome ↔
       2 ≤ (withSalaries df col).length ∧ 2 ≤ (withoutSalaries df col).length) ∧
    (identifyHighValueSkills ttest df).length =
      ((skillBinaryCols df).filter (fun col =>
        decide (2 ≤ (withSalaries df col).length) &&
        decide (2 ≤ (withoutSalaries df col).length))).length := by
  have hiff : ∀ col, (hvsRowFor ttest df col).isSome ↔
      2 ≤ (withSalaries df col).length ∧ 2 ≤ (withoutSalaries df col).length := by
    intro col
    unfold hvsRowFor
    by_cases h : (withSalaries df col).length < 2 ∨ (withoutSalaries df col).length < 2
    · rw [if_pos h]
      simp only [Option.isSome_none, Bool.false_eq_true, false_iff]
      omega
    · rw [if_neg h]
      simp only [Option.isSome_some, true_iff]
      omega
  refine ⟨hiff, ?_⟩
  have hlen : (hvsBase ttest df).length =
      ((skillBinaryCols df).filter (fun col =>
        decide (2 ≤ (withSalaries df col).length) &&
        decide (2 ≤ (withoutSalaries df col).length))).length := by
    apply length_filterMap_eq_length_filter
    intro col
    rw [Bool.eq_iff_iff]
    simp only [Bool.and_eq_true, decide_eq_true_eq]
    exact hiff col
  unfold identifyHighValueSkills
  by_cases hb : (hvsBase ttest df).isEmpty
  · rw [if_pos hb]
    rw [List.isEmpty_iff.mp hb] at hlen ⊢
    exact hlen
  · rw [if_neg hb, List.length_map, (List.perm_insertionSort _ _).length_eq,
      List.length_map]
    exact hlen

/-- C7 (amended).  In the skill premium analysis a skill is emitted exactly
when its column is present and both partitions are non-empty: there is no
guard on a zero without-skill mean, so a skill whose without-skill
partition is non-empty with mean salary `0` still produces a result row
(its premium percentage being a division by zero, `inf` in the NumPy
arithmetic of the source). -/
theorem empty_partition_guard_only (backend : Option TTest) (alpha : ℚ) (df : DF) :
    (∀ col, (spRowFor backend alpha df col).isSome ↔
       col ∈ df.cols ∧ (withSalaries df col).length ≠ 0 ∧
         (withoutSalaries df col).length ≠ 0) ∧
    (∀ cols : List String, (analyzeSkillPremium backend alpha df cols).length =
       (cols.filter (fun col => decide (col ∈ df.cols) &&
         decide ((withSalaries df col).length ≠ 0) &&
         decide ((withoutSalaries df col).length ≠ 0))).length) := by
  have hiff : ∀ col, (spRowFor backend alpha df col).isSome ↔
      col ∈ df.cols ∧ (withSalaries df col).length ≠ 0 ∧
        (withoutSalaries df col).length ≠ 0 := by
    intro col
    unfold spRowFor
    by_cases hc : col ∈ df.cols
    · rw [if_pos hc]
      by_cases h0 : (withSalaries df col).length = 0 ∨ (withoutSalaries df col).length = 0
      · rw [if_pos h0]
        simp only [Option.isSome_none, Bool.false_eq_true, false_iff]
        omega
      · rw [if_neg h0]
        simp only [Option.isSome_some, true_iff]
        refine ⟨hc, ?_, ?_⟩ <;> omega
    · rw [if_neg hc]
      simp [hc]
  refine ⟨hiff, ?_⟩
  intro cols
  have hlen : (cols.filterMap (spRowFor backend alpha df)).length =
      (cols.filter (fun col => decide (col ∈ df.cols) &&
        decide ((withSalaries df col).length ≠ 0) &&
        decide ((withoutSalaries df col).length ≠ 0))).length := by
    apply length_filterMap_eq_length_filter
    intro col
    rw [Bool.eq_iff_iff]
    simp only [Bool.and_eq_true, decide_eq_true_eq, and_assoc]
    exact hiff col
  unfold analyzeSkillPremium
  rw [(List.perm_insertionSort _ _).length_eq]
  exact hlen

/-- Counterexample for C7: on a concrete dataset whose without-skill
partition is non-empty with mean salary `0`, the skill is not skipped — a
result row is emitted (with `avg_salary_without_skill = 0`). -/
theorem empty_partition_guard_only_counterexample :
    (analyzeSkillPremium none (1 / 20) dfC7 ["skill_python"]).map
        (fun r => (r.skill_name, r.avg_salary_without_skill)) = [("Python", 0)] ∧
    (withoutSalaries dfC7 "skill_python").length ≠ 0 ∧
    listMean (withoutSalaries dfC7 "skill_python") = 0 := by decide

/-- C6 (amended).  Every row of the high-value-skills result carries the
`value_tier` that `pd.cut` with bins `[0, 33, 66, 100]` assigns to its
`value_score`; with pandas' right-closed bins these are `(0,33] →
Standard`, `(33,66] → High-Value`, `(66,100] → Premium`, so a score of
exactly `0` gets no tier, `33` gets Standard and `66` gets High-Value. -/
theorem value_tier_bins :
    (∀ (ttest : TTest) (df : DF) (r : HighValueSkillRow),
       r ∈ identifyHighValueSkills ttest df → r.value_tier = pdCut3 r.value_score) ∧
    pdCut3 0 = none ∧ pdCut3 33 = some ValueTier.Standard ∧
    pdCut3 66 = some ValueTier.HighValue ∧ pdCut3 100 = some ValueTier.Premium := by
  refine ⟨?_, by decide, by decide, by decide, by decide⟩
  intro ttest df r h
  obtain ⟨r0, _, hr⟩ := mem_identifyHighValueSkills h
  subst hr
  simp [setValueTier]

/-- Witness for C6: the tier of the row produced on a concrete dataset is
the `pd.cut` image of its score. -/
theorem value_tier_bins_witness :
    ((identifyHighValueSkills ttest0 dfW).headD default).value_tier =
      pdCut3 ((identifyHighValueSkills ttest0 dfW).headD default).value_score :=
  value_tier_bins.1 ttest0 dfW _ (by decide)

set_option maxRecDepth 4000 in
/-- Counterexample for C6: on a concrete dataset one skill scores exactly
`33` and lands in `Standard`, not in `High-Value` as the claimed bin
`[33,66) → High-Value` would require. -/
theorem value_tier_bins_counterexample :
    (identifyHighValueSkills ttest0 dfC6).map (fun r => (r.value_score, r.value_tier)) =
      [(100, some ValueTier.Premium), (33, some ValueTier.Standard)] ∧
    some ValueTier.Standard ≠ some ValueTier.HighValue := by decide

/-- C5 (amended).  The co-occurrence extraction returns exactly the strict
upper-triangle pairs (`i < j`, never `i = j`) whose signed correlation
satisfies `correlation ≥ min_correlation` — the absolute value is not
taken, so a pair with `correlation ≤ -min_correlation` is dropped — each
tagged `Strong` when `correlation ≥ 0.6` and `Moderate` otherwise. -/
theorem cooccurrence_extraction (m : CorrMatrix) (minCorrelation : ℚ) :
    (∀ p : SkillPair, p ∈ analyzeSkillCooccurrence m minCorrelation ↔
       ∃ i j, i < j ∧ j < m.names.length ∧ minCorrelation ≤ m.entry i j ∧
         p = pairOf m i j) ∧
    (∀ p ∈ analyzeSkillCooccurrence m minCorrelation,
       p.strength = if 6 / 10 ≤ p.correlation then "Strong" else "Moderate") := by
  have hmem : ∀ p : SkillPair, p ∈ extractPairs m minCorrelation ↔
      ∃ i j, i < j ∧ j < m.names.length ∧ minCorrelation ≤ m.entry i j ∧
        p = pairOf m i j := by
    intro p
    unfold extractPairs
    simp only [List.mem_flatMap, List.mem_filterMap, List.mem_filter,
      List.mem_range, decide_eq_true_eq]
    constructor
    · rintro ⟨i, _, j, ⟨hj, hij⟩, hp⟩
      rw [Option.ite_none_right_eq_some] at hp
      exact ⟨i, j, hij, hj, hp.1, (Option.some.inj hp.2).symm⟩
    · rintro ⟨i, j, hij, hj, hc, rfl⟩
      exact ⟨i, lt_trans hij hj, j, ⟨hj, hij⟩, by rw [if_pos hc]⟩
  constructor
  · intro p
    rw [analyzeSkillCooccurrence, List.mem_insertionSort]
    exact hmem p
  · intro p hp
    rw [analyzeSkillCooccurrence, List.mem_insertionSort] at hp
    obtain ⟨i, j, _, _, _, rfl⟩ := (hmem p).mp hp
    rfl

/-- Witness for C5: on a concrete matrix the pair `(0, 1)` with
correlation `0.7` is produced and tagged `Strong`. -/
theorem cooccurrence_extraction_witness :
    pairOf mPos 0 1 ∈ analyzeSkillCooccurrence mPos (3 / 10) ∧
    (pairOf mPos 0 1).strength =
      if 6 / 10 ≤ (pairOf mPos 0 1).correlation then "Strong" else "Moderate" := by
  have h1 : pairOf mPos 0 1 ∈ analyzeSkillCooccurrence mPos (3 / 10) :=
    ((cooccurrence_extraction mPos (3 / 10)).1 (pairOf mPos 0 1)).mpr
      ⟨0, 1, by decide, by decide, by decide, rfl⟩
  exact ⟨h1, (cooccurrence_extraction mPos (3 / 10)).2 (pairOf mPos 0 1) h1⟩

/-- Counterexample for C5: a pair whose correlation is `-1/2` satisfies
`|correlation| ≥ 0.3` but is absent — the extraction on a concrete matrix
with that single off-diagonal entry returns no pair at all. -/
theorem cooccurrence_extraction_counterexample :
    analyzeSkillCooccurrence mNeg (3 / 10) = [] ∧
    (3 : ℚ) / 10 ≤ |mNeg.entry 0 1| ∧ mNeg.names.length = 2 := by decide

/-- C1 (amended).  In `analyze_skill_premium` every emitted row satisfies
`salary_premium = avg_with − avg_without` and `premium_pct =
salary_premium / avg_without × 100` exactly; but in
`identify_high_value_skills` the premium of every emitted row is measured
against the overall dataset mean, `salary_premium = round2(avg_with −
overall_mean)` and `premium_pct = round2((avg_with / overall_mean − 1) ×
100)`, not against the without-skill mean. -/
theorem premium_field_semantics :
    (∀ (backend : Option TTest) (alpha : ℚ) (df : DF) (cols : List String)
       (r : SkillPremiumResult), r ∈ analyzeSkillPremium backend alpha df cols →
         r.salary_premium = r.avg_salary_with_skill - r.avg_salary_without_skill ∧
         (r.avg_salary_without_skill ≠ 0 →
           r.premium_percentage = r.salary_premium / r.avg_salary_without_skill * 100)) ∧
    (∀ (ttest : TTest) (df : DF) (r : HighValueSkillRow),
       r ∈ identifyHighValueSkills ttest df →
         ∃ col ∈ skillBinaryCols df,
           r.salary_premium =
             round2 (listMean (withSalaries df col) - listMean (salaries df)) ∧
           r.premium_percentage =
             round2 ((listMean (withSalaries df col) / listMean (salaries df) - 1) * 100) ∧
           r.avg_salary_with_skill = round2 (listMean (withSalaries df col)) ∧
           r.avg_salary_without_skill = round2 (listMean (withoutSalaries df col))) := by
  constructor
  · intro backend alpha df cols r h
    unfold analyzeSkillPremium at h
    rw [List.mem_insertionSort] at h
    obtain ⟨col, _, hsome⟩ := List.mem_filterMap.mp h
    unfold spRowFor at hsome
    split at hsome
    · split at hsome
      · exact absurd hsome (by simp)
      · obtain rfl := Option.some.inj hsome
        exact ⟨rfl, fun _ => rfl⟩
    · exact absurd hsome (by simp)
  · intro ttest df r h
    obtain ⟨r0, hr0, hr⟩ := mem_identifyHighValueSkills h
    obtain ⟨col, hcol, hsome⟩ := List.mem_filterMap.mp hr0
    refine ⟨col, hcol, ?_⟩
    unfold hvsRowFor at hsome
    split at hsome
    · exact absurd hsome (by simp)
    · obtain rfl := Option.some.inj hsome
      subst hr
      exact ⟨rfl, rfl, rfl, rfl⟩

/-- Witness for C1: both parts applied on concrete datasets. -/
theorem premium_field_semantics_witness :
    (((analyzeSkillPremium none (1 / 20) dfC4 ["skill_python"]).headD default).salary_premium =
       ((analyzeSkillPremium none (1 / 20) dfC4 ["skill_python"]).headD default).avg_salary_with_skill -
       ((analyzeSkillPremium none (1 / 20) dfC4 ["skill_python"]).headD default).avg_salary_without_skill) ∧
    (((analyzeSkillPremium none (1 / 20) dfC4 ["skill_python"]).headD default).premium_percentage =
       ((analyzeSkillPremium none (1 / 20) dfC4 ["skill_python"]).headD default).salary_premium /
       ((analyzeSkillPremium none (1 / 20) dfC4 ["skill_python"]).headD default).avg_salary_without_skill * 100) ∧
    (∃ col ∈ skillBinaryCols dfC1,
       ((identifyHighValueSkills ttest0 dfC1).headD default).salary_premium =
         round2 (listMean (withSalaries dfC1 col) - listMean (salaries dfC1))) := by
  have h1 := premium_field_semantics.1 none (1 / 20) dfC4 ["skill_python"]
    ((analyzeSkillPremium none (1 / 20) dfC4 ["skill_python"]).headD default) (by decide)
  have h2 := premium_field_semantics.2 ttest0 dfC1
    ((identifyHighValueSkills ttest0 dfC1).headD default) (by decide)
  obtain ⟨col, hcol, hprem, _⟩ := h2
  exact ⟨h1.1, h1.2 (by decide), col, hcol, hprem⟩

/-- Counterexample for C1: on a concrete dataset the emitted
`identify_high_value_skills` row has `salary_premium = 25` while its own
`avg_salary_with_skill − avg_salary_without_skill` is `100 − 50 = 50`. -/
theorem premium_field_semantics_counterexample :
    (identifyHighValueSkills ttest0 dfC1).map
        (fun r => (r.salary_premium, r.avg_salary_with_skill, r.avg_salary_without_skill)) =
      [(25, 100, 50)] ∧
    (25 : ℚ) ≠ 100 - 50 := by decide

/-- C3 (amended).  When both result-set maxima are positive every row's
`value_score` equals `100 × (0.5 × premium_pct / max premium_pct + 0.5 ×
demand_pct / max demand_pct)` rounded to 2 decimals (the maxima taken over
the current result set), and the skill holding the maximum
`premium_percentage` contributes exactly `50` to its own score through the
premium term. -/
theorem value_score_formula (ttest : TTest) (df : DF) (r : HighValueSkillRow)
    (h : r ∈ identifyHighValueSkills ttest df) :
    r.value_score = round2 (100 * ((1 / 2) * r.premium_percentage /
        listMax ((identifyHighValueSkills ttest df).map (fun x => x.premium_percentage)) +
      (1 / 2) * r.demand_percentage /
        listMax ((identifyHighValueSkills ttest df).map (fun x => x.demand_percentage)))) ∧
    (0 < listMax ((identifyHighValueSkills ttest df).map (fun x => x.premium_percentage)) →
     r.premium_percentage =
       listMax ((identifyHighValueSkills ttest df).map (fun x => x.premium_percentage)) →
     100 * ((1 / 2) * r.premium_percentage /
       listMax ((identifyHighValueSkills ttest df).map (fun x => x.premium_percentage))) = 50) := by
  have hmaxP := listMax_of_perm (map_premium_perm ttest df)
  have hmaxD := listMax_of_perm (map_demand_perm ttest df)
  constructor
  · rw [hmaxP, hmaxD]
    obtain ⟨r0, _, hr⟩ := mem_identifyHighValueSkills h
    subst hr
    simp only [setValueTier, setValueScore]
    congr 1
    ring
  · intro hpos heq
    rw [heq, mul_div_assoc, div_self (ne_of_gt hpos)]
    norm_num

/-- Witness for C3: on a concrete single-skill dataset the produced row
realizes the rounded formula, and its premium term contributes exactly
`50`. -/
theorem value_score_formula_witness :
    ((identifyHighValueSkills ttest0 dfW).headD default).value_score =
      round2 (100 * ((1 / 2) *
        ((identifyHighValueSkills ttest0 dfW).headD default).premium_percentage /
          listMax ((identifyHighValueSkills ttest0 dfW).map (fun x => x.premium_percentage)) +
        (1 / 2) * ((identifyHighValueSkills ttest0 dfW).headD default).demand_percentage /
          listMax ((identifyHighValueSkills ttest0 dfW).map (fun x => x.demand_percentage)))) ∧
    100 * ((1 / 2) * ((identifyHighValueSkills ttest0 dfW).headD default).premium_percentage /
      listMax ((identifyHighValueSkills ttest0 dfW).map (fun x => x.premium_percentage))) = 50 := by
  have h := value_score_formula ttest0 dfW
    ((identifyHighValueSkills ttest0 dfW).headD default) (by decide)
  exact ⟨h.1, h.2 (by decide) (by decide)⟩

set_option maxRecDepth 4000 in
/-- Counterexample for C3: on a concrete two-skill dataset the second
row's stored `value_score` is the rounded `41.67`, not the exact formula
value `125/3 = 41.666...`. -/
theorem value_score_formula_counterexample :
    (identifyHighValueSkills ttest0 dfC3).map
        (fun r => (r.premium_percentage, r.demand_percentage, r.value_score)) =
      [(30, 50, 100), (10, 25, 4167 / 100)] ∧
    (4167 : ℚ) / 100 ≠ 100 * ((1 / 2) * 10 / 30 + (1 / 2) * 25 / 50) := by decide

/-- C8 (amended).  The skill-combination signature joins the active skill
names in the fixed `get_skill_columns()` registry order (not sorted); the
claimed consequence still holds: because the join order comes from the
fixed registry and not from the dataframe's column order, any two rows
with identical active-skill cells receive the same signature string
regardless of how the dataframes order their columns. -/
theorem signature_registry_order (df1 df2 : DF) (r1 r2 : Row)
    (hcols : ∀ c ∈ getSkillColumns, (c ∈ df1.cols ↔ c ∈ df2.cols))
    (hcells : ∀ c ∈ getSkillColumns, r1.cells c = r2.cells c) :
    skillSignature df1 r1 = skillSignature df2 r2 := by
  unfold skillSignature
  have havail : availableSkills df1 = availableSkills df2 := by
    unfold availableSkills
    apply List.filter_congr
    intro c hc
    exact decide_eq_decide.mpr (hcols c hc)
  rw [havail]
  have hfilter : (availableSkills df2).filter (fun c => r1.cells c = 1) =
      (availableSkills df2).filter (fun c => r2.cells c = 1) := by
    apply List.filter_congr
    intro c hc
    have hreg : c ∈ getSkillColumns := by
      unfold availableSkills at hc
      exact (List.mem_filter.mp hc).1
    rw [hcells c hreg]
  rw [hfilter]

/-- Witness for C8: the same posting row produces the same signature on
two dataframes whose skill columns are listed in opposite orders. -/
theorem signature_registry_order_witness :
    skillSignature dfC8 rC8 = skillSignature dfC8b rC8 :=
  signature_registry_order dfC8 dfC8b rC8 rC8 (by decide) (fun _ _ => rfl)

/-- Counterexample for C8: a posting with `skill_tensorflow` and
`skill_excel` gets the registry-order signature `tensorflow,excel`, while
the sorted join the claim describes would give `excel,tensorflow`. -/
theorem signature_registry_order_counterexample :
    skillSignature dfC8 rC8 = "tensorflow,excel" ∧
    sortedSignatureSpec dfC8 rC8 = "excel,tensorflow" ∧
    ("tensorflow,excel" : String) ≠ "excel,tensorflow" := by decide

end JobMarket
